import Mathlib

/-! k3screenctrl: dispatch, reset sequence and startup order of `main.c`.

A shallow embedding of `src/main.c`.  Every call into another translation
unit (GPIO, serial port, frame transmitter, syslog, printf, a registered
response handler) is recorded as an `Event`; a function of the program is a
value of `Run α`: the events it performs, in order, and what it returns.
Results of the external calls come from an `Env`.
-/

namespace K3ScreenCtrl

/-! ## Observable events -/

/-- Priorities of `syslog` used by `main.c`. -/
inductive Priority where
  | LOG_ERR
  | LOG_WARNING
  deriving DecidableEq, Repr

/-- Functions of the program that `main` passes as callbacks. -/
inductive Callback where
  | frame_notify_serial_recv
  | frame_handler
  deriving DecidableEq, Repr

/-- One externally visible step of the program.  `load_response_handler i` is
the read of `g_response_handlers[i]` made by the dispatch loop (`handler->type`).
`handler_call fn payload len` is the indirect call `handler->handler(frame + 2, len - 2)`:
`fn` is the function pointer called (`none` for `NULL`), `payload` the bytes
stored from `frame + 2` on, `len` the count passed. -/
inductive Event where
  | mask_memory_byte (addr mask value : Nat)
  | gpio_export (gpio : Nat)
  | gpio_set_value (gpio value : Nat)
  | serial_setup (path : String)
  | syslog (priority : Priority) (format : String) (args : List Int)
  | printf (format : String) (args : List Int)
  | load_response_handler (index : Nat)
  | handler_call (fn : Option Nat) (payload : List Nat) (len : Int)
  | serial_set_pollin_callback (cb : Callback)
  | frame_set_received_callback (cb : Callback)
  | frame_send (data : List Nat) (len : Nat)
  | serial_start_poll_loop
  deriving DecidableEq, Repr

/-- Events performed, in program order, and the value produced. -/
structure Run (α : Type) where
  trace : List Event
  ret : α
  deriving DecidableEq, Repr

/-- Sequencing: the events of the first computation, then those of the second. -/
def Run.bind {α β : Type} (m : Run α) (f : α → Run β) : Run β :=
  ⟨m.trace ++ (f m.ret).trace, (f m.ret).ret⟩

instance : Monad Run where
  pure a := ⟨[], a⟩
  bind := Run.bind

/-- Perform one event. -/
def emit (e : Event) : Run Unit := ⟨[e], ()⟩

/-! ## Response dispatch (`print_buf`, `frame_handler`) -/

/-- How a call of `frame_handler` ends: it returns, or it leaves defined
behaviour by calling a null function pointer, by reading the handler array
past its last element, or by reading the frame buffer past its end. -/
inductive Outcome where
  | returned
  | null_call
  | table_overrun
  | frame_overrun
  deriving DecidableEq, Repr

/-- Modelled from the spec: `handlers.h`, which declares `RESPONSE_HANDLER`, is
missing; the spec describes the table as entries `(response type byte) →
(callback consuming payload pointer + length)`, and `frame_handler` reads the
fields `type` and `handler`.  `handler` is a function pointer: `none` is
`NULL`, `some f` the function numbered `f`. -/
structure RESPONSE_HANDLER where
  type : Nat
  handler : Option Nat
  deriving DecidableEq, Repr

/-- Value of the loop variable `RESPONSE_HANDLER* handler`: the null pointer or
the address of `g_response_handlers[i]` (`i` may be one past the last element). -/
inductive HandlerPtr where
  | NULL
  | elem (i : Nat)
  deriving DecidableEq, Repr

/-- Body of the `for` loop of `print_buf`, entered with index `i` and
`remaining = len - i` iterations to go (`i < len` iff `remaining` is not 0). -/
def print_buf_loop (buf : List Nat) : Nat → Nat → Run Outcome
  | _, 0 => ⟨[], Outcome.returned⟩
  | i, remaining + 1 =>
    match buf[i]? with
    | none => ⟨[], Outcome.frame_overrun⟩
    | some b =>
      let r := print_buf_loop buf (i + 1) remaining
      ⟨Event.printf "0x%hhx " [(b : Int)] :: r.trace, r.ret⟩

/-- Model of `print_buf(buf, len)`. -/
def print_buf (buf : List Nat) (len : Int) : Run Outcome :=
  let r := print_buf_loop buf 0 len.toNat
  match r.ret with
  | Outcome.returned =>
    ⟨Event.printf "RCVD %d bytes\n" [len] :: (r.trace ++ [Event.printf "\n" []]), Outcome.returned⟩
  | o => ⟨Event.printf "RCVD %d bytes\n" [len] :: r.trace, o⟩

/-- Lines 50-51 of `main.c`: the code after the dispatch loop. -/
def frame_handler_unknown_response (frame : List Nat) (len : Int) (key : Nat) : Run Outcome :=
  let r := print_buf frame len
  ⟨Event.syslog Priority.LOG_WARNING "frame with unknown response type received: %hhx\n" [(key : Int)]
      :: r.trace, r.ret⟩

/-- The `for` loop of `frame_handler` (lines 43-48), entered with the loop
variable `handler` and `cells`, the elements of `g_response_handlers` stored
from that address to the end of the array.  The loop is left only when
`handler` is `NULL`; `handler++` moves to the next element and never yields
`NULL`. -/
def frame_handler_loop (frame : List Nat) (len : Int) (key : Nat) :
    HandlerPtr → List RESPONSE_HANDLER → Run Outcome
  | HandlerPtr.NULL, _ => frame_handler_unknown_response frame len key
  | HandlerPtr.elem i, [] => ⟨[Event.load_response_handler i], Outcome.table_overrun⟩
  | HandlerPtr.elem i, e :: cells =>
    if e.type = key then
      ⟨[Event.load_response_handler i, Event.handler_call e.handler (frame.drop 2) (len - 2)],
        match e.handler with
        | none => Outcome.null_call
        | some _ => Outcome.returned⟩
    else
      let r := frame_handler_loop frame len key (HandlerPtr.elem (i + 1)) cells
      ⟨Event.load_response_handler i :: r.trace, r.ret⟩

/-- Model of `frame_handler(frame, len)`.  `PAYLOAD_HEADER` (`mcu_proto.h`) and
the contents of `g_response_handlers` (`handlers.c`) are defined outside
`main.c` and are parameters.  `frame` is the buffer the pointer refers to. -/
def frame_handler (PAYLOAD_HEADER : Nat) (g_response_handlers : List RESPONSE_HANDLER)
    (frame : List Nat) (len : Int) : Run Outcome :=
  match frame[0]? with
  | none => ⟨[], Outcome.frame_overrun⟩
  | some b0 =>
    if b0 ≠ PAYLOAD_HEADER then
      ⟨[Event.syslog Priority.LOG_WARNING "frame with unknown type received: %hhx\n" [(b0 : Int)]],
        Outcome.returned⟩
    else
      match frame[1]? with
      | none => ⟨[], Outcome.frame_overrun⟩
      | some key => frame_handler_loop frame len key (HandlerPtr.elem 0) g_response_handlers

/-! ## Device reset and startup (`screen_initialize`, `main`) -/

/-- Modelled from the spec: `common.h`, which defines `SUCCESS` and `FAILURE`,
is missing; the spec gives the GPIO and transport calls the shape `-> Result`,
a result that is a success or a failure. -/
inductive Status where
  | SUCCESS
  | FAILURE
  deriving DecidableEq, Repr

/-- Results of the calls `main.c` makes into the GPIO and serial modules.  Each
of these calls is made at most once per run with arguments that differ from
those of every other call, so a result per argument covers every behaviour of
the collaborators.  `serial_start_poll_loop_returns` says whether the poll loop
ever returns to `main`. -/
structure Env where
  gpio_export : Nat → Status
  gpio_set_value : Nat → Nat → Status
  serial_setup : String → Status
  serial_start_poll_loop_returns : Bool

/-- GPIO line of the boot mode, sampled on the rising edge of the reset line:
low runs the application from ROM, high enters download mode. -/
def SCREEN_BOOT_MODE_GPIO : Nat := 7

/-- GPIO line that resets the screen on its rising edge. -/
def SCREEN_RESET_GPIO : Nat := 8

/-- Value of `EIO` in `<errno.h>` (Linux). -/
def EIO : Int := 5

/-- Call of `mask_memory_byte(addr, mask, value)`; its result is not used. -/
def mask_memory_byte (addr mask value : Nat) : Run Unit :=
  emit (Event.mask_memory_byte addr mask value)

/-- Call of `gpio_export(gpio)`. -/
def gpio_export (env : Env) (gpio : Nat) : Run Status :=
  ⟨[Event.gpio_export gpio], env.gpio_export gpio⟩

/-- Call of `gpio_set_value(gpio, value)`. -/
def gpio_set_value (env : Env) (gpio value : Nat) : Run Status :=
  ⟨[Event.gpio_set_value gpio value], env.gpio_set_value gpio value⟩

/-- Call of `serial_setup(path)`, which opens the serial transport. -/
def serial_setup (env : Env) (path : String) : Run Status :=
  ⟨[Event.serial_setup path], env.serial_setup path⟩

/-- Call of `syslog(priority, format, args...)`. -/
def syslog (priority : Priority) (format : String) (args : List Int) : Run Unit :=
  emit (Event.syslog priority format args)

/-- Call of `serial_set_pollin_callback(cb)`. -/
def serial_set_pollin_callback (cb : Callback) : Run Unit :=
  emit (Event.serial_set_pollin_callback cb)

/-- Call of `frame_set_received_callback(cb)`. -/
def frame_set_received_callback (cb : Callback) : Run Unit :=
  emit (Event.frame_set_received_callback cb)

/-- Call of `frame_send(data, len)`; its result is not used. -/
def frame_send (data : List Nat) (len : Nat) : Run Unit :=
  emit (Event.frame_send data len)

/-- Call of `serial_start_poll_loop()`; the value says whether it returns. -/
def serial_start_poll_loop (env : Env) : Run Bool :=
  ⟨[Event.serial_start_poll_loop], env.serial_start_poll_loop_returns⟩

/-- The C test `call == FAILURE`. -/
def is_failure (call : Run Status) : Run Bool :=
  Run.bind call (fun s => pure (decide (s = Status.FAILURE)))

/-- The C operator `||`: the right operand is evaluated only when the left one
is false. -/
def lor (a b : Run Bool) : Run Bool :=
  Run.bind a (fun x => if x then pure true else b)

/-- Model of `screen_initialize(skip_reset)`. -/
def screen_initialize (env : Env) (skip_reset : Int) : Run Status := do
  mask_memory_byte 0x1800c1c1 0xf0 0
  if skip_reset = 0 then
    if (← lor (is_failure (gpio_export env SCREEN_BOOT_MODE_GPIO))
          (is_failure (gpio_export env SCREEN_RESET_GPIO))) then
      syslog Priority.LOG_ERR "Could not export GPIOs\n" []
      return Status.FAILURE
    if (← lor (is_failure (gpio_set_value env SCREEN_BOOT_MODE_GPIO 0))
          (lor (is_failure (gpio_set_value env SCREEN_RESET_GPIO 0))
            (is_failure (gpio_set_value env SCREEN_RESET_GPIO 1)))) then
      syslog Priority.LOG_ERR "Could not reset screen\n" []
      return Status.FAILURE
  if (← is_failure (serial_setup env "/dev/ttyS1")) then
    syslog Priority.LOG_ERR "Could not setup serial transport\n" []
    return Status.FAILURE
  return Status.SUCCESS

/-- The C operator `sizeof` on an array of `unsigned char`. -/
def sizeof (a : List Nat) : Nat := a.length

def data : List Nat := [
  0x30, 0x01]

def d2 : List Nat := [
  0x30, 0x09, 0x4b, 0x33, 0x00, 0x00, 0x00, 0x00, 0x00, 0x00, 0x41, 0x31, 0x00, 0x00, 0x00, 0x00,
  0x00, 0x00, 0x56, 0x32, 0x31, 0x2e, 0x34, 0x2e, 0x33, 0x33, 0x2e, 0x32, 0x31, 0x37, 0x00, 0x00,
  0x00, 0x00, 0x00, 0x00, 0x00, 0x00, 0x00, 0x00, 0x00, 0x00, 0x44, 0x38, 0x3a, 0x43, 0x38, 0x3a,
  0x45, 0x39, 0x3a, 0x46, 0x45, 0x3a, 0x43, 0x36, 0x3a, 0x36, 0x43, 0x00]

def d3 : List Nat := [
  0x30, 0x07, 0x01, 0x00, 0x00, 0x00, 0x40, 0x50, 0x48, 0x49, 0x43, 0x4f, 0x4d, 0x4d, 0x5f, 0x36,
  0x43, 0x00, 0x00, 0x00, 0x00, 0x00, 0x00, 0x00, 0x00, 0x00, 0x00, 0x00, 0x00, 0x00, 0x00, 0x00,
  0x00, 0x00, 0x00, 0x00, 0x00, 0x00, 0x00, 0x00, 0x00, 0x00, 0x00, 0x00, 0x00, 0x00, 0x00, 0x00,
  0x00, 0x00, 0x00, 0x00, 0x00, 0x00, 0x00, 0x00, 0x00, 0x00, 0x00, 0x00, 0x00, 0x00, 0x00, 0x00,
  0x00, 0x00, 0x00, 0x00, 0x00, 0x00, 0x2a, 0x2a, 0x2a, 0x2a, 0x2a, 0x2a, 0x00, 0x00, 0x00, 0x00,
  0x00, 0x00, 0x00, 0x00, 0x00, 0x00, 0x00, 0x00, 0x00, 0x00, 0x00, 0x00, 0x00, 0x00, 0x00, 0x00,
  0x00, 0x00, 0x00, 0x00, 0x00, 0x00, 0x00, 0x00, 0x00, 0x00, 0x00, 0x00, 0x00, 0x00, 0x00, 0x00,
  0x00, 0x00, 0x00, 0x00, 0x00, 0x00, 0x00, 0x00, 0x00, 0x00, 0x00, 0x00, 0x00, 0x00, 0x00, 0x00,
  0x00, 0x00, 0x00, 0x00, 0x00, 0x00, 0x01, 0x00, 0x00, 0x00, 0x40, 0x50, 0x48, 0x49, 0x43, 0x4f,
  0x4d, 0x4d, 0x5f, 0x36, 0x43, 0x00, 0x00, 0x00, 0x00, 0x00, 0x00, 0x00, 0x00, 0x00, 0x00, 0x00,
  0x00, 0x00, 0x00, 0x00, 0x00, 0x00, 0x00, 0x00, 0x00, 0x00, 0x00, 0x00, 0x00, 0x00, 0x00, 0x00,
  0x00, 0x00, 0x00, 0x00, 0x00, 0x00, 0x00, 0x00, 0x00, 0x00, 0x00, 0x00, 0x00, 0x00, 0x00, 0x00,
  0x00, 0x00, 0x00, 0x00, 0x00, 0x00, 0x00, 0x00, 0x00, 0x00, 0x2a, 0x2a, 0x2a, 0x2a, 0x2a, 0x2a,
  0x00, 0x00, 0x00, 0x00, 0x00, 0x00, 0x00, 0x00, 0x00, 0x00, 0x00, 0x00, 0x00, 0x00, 0x00, 0x00,
  0x00, 0x00, 0x00, 0x00, 0x00, 0x00, 0x00, 0x00, 0x00, 0x00, 0x00, 0x00, 0x00, 0x00, 0x00, 0x00,
  0x00, 0x00, 0x00, 0x00, 0x00, 0x00, 0x00, 0x00, 0x00, 0x00, 0x00, 0x00, 0x00, 0x00, 0x00, 0x00,
  0x00, 0x00, 0x00, 0x00, 0x00, 0x00, 0x00, 0x00, 0x00, 0x00, 0x01, 0x00, 0x00, 0x00, 0x40, 0x50,
  0x48, 0x49, 0x43, 0x4f, 0x4d, 0x4d, 0x5f, 0x47, 0x75, 0x65, 0x73, 0x74, 0x00, 0x00, 0x00, 0x00,
  0x00, 0x00, 0x00, 0x00, 0x00, 0x00, 0x00, 0x00, 0x00, 0x00, 0x00, 0x00, 0x00, 0x00, 0x00, 0x00,
  0x00, 0x00, 0x00, 0x00, 0x00, 0x00, 0x00, 0x00, 0x00, 0x00, 0x00, 0x00, 0x00, 0x00, 0x00, 0x00,
  0x00, 0x00, 0x00, 0x00, 0x00, 0x00, 0x00, 0x00, 0x00, 0x00, 0x00, 0x00, 0x00, 0x00, 0x00, 0x00,
  0x00, 0x00, 0x00, 0x00, 0x00, 0x00, 0x00, 0x00, 0x00, 0x00, 0x00, 0x00, 0x00, 0x00, 0x00, 0x00,
  0x00, 0x00, 0x00, 0x00, 0x00, 0x00, 0x00, 0x00, 0x00, 0x00, 0x00, 0x00, 0x00, 0x00, 0x00, 0x00,
  0x00, 0x00, 0x00, 0x00, 0x00, 0x00, 0x00, 0x00, 0x00, 0x00, 0x00, 0x00, 0x00, 0x00, 0x00, 0x00,
  0x00, 0x00, 0x00, 0x00, 0x00, 0x00, 0x00, 0x00, 0x00, 0x00, 0x00, 0x00, 0x00, 0x00, 0x00, 0x00,
  0x00, 0x00]

def d35 : List Nat := [
  0x30, 0x06, 0x01, 0x00, 0x00, 0x00, 0x40, 0x4c, 0xe3, 0x0d, 0x80, 0x5a, 0xb2, 0x27]

def d4 : List Nat := [
  0x30, 0x08, 0x00, 0x00, 0x00, 0x00, 0x00, 0x00, 0x00, 0x00, 0x00, 0x00, 0x00, 0x00, 0x00, 0x00,
  0x00, 0x00, 0x00, 0x00, 0x00, 0x00, 0x00, 0x00, 0x00, 0x00, 0x00, 0x00, 0x00, 0x00, 0x00, 0x00,
  0x00, 0x00, 0x00, 0x00, 0x00, 0x00, 0x00, 0x00, 0x00, 0x00, 0x00, 0x00, 0x00, 0x00, 0x00, 0x00,
  0x00, 0x00, 0x00, 0x00, 0x00, 0x00, 0x00, 0x00, 0x00, 0x00, 0x00, 0x00, 0x00, 0x00, 0x00, 0x00,
  0x00, 0x00, 0x00, 0x00, 0x00, 0x00, 0x00, 0x00, 0x00, 0x00, 0x00, 0x00, 0x00, 0x00, 0x00, 0x00,
  0x00, 0x00, 0x00, 0x00, 0x00, 0x00, 0x00, 0x00, 0x00, 0x00, 0x00, 0x00, 0x00, 0x00, 0x00, 0x00,
  0x00, 0x00, 0x00, 0x00, 0x00, 0x00, 0x00, 0x00, 0x00, 0x00, 0x00, 0x00, 0x00, 0x00, 0x00, 0x00,
  0x00, 0x00, 0x00, 0x00, 0x00, 0x00, 0x00, 0x00, 0x00, 0x00, 0x00, 0x00, 0x00, 0x00, 0x00, 0x00,
  0x00, 0x00, 0x00, 0x00, 0x00, 0x00, 0x00, 0x00, 0x00, 0x00, 0x00, 0x00, 0x00, 0x00, 0x00, 0x00,
  0x00, 0x00, 0x00, 0x00, 0x00, 0x00, 0x00, 0x00, 0x00, 0x00, 0x00, 0x00, 0x00, 0x00, 0x00, 0x00,
  0x00, 0x00, 0x00, 0x00, 0x00, 0x00, 0x00, 0x00, 0x00, 0x00, 0x00, 0x00, 0x00, 0x00, 0x00, 0x00,
  0x00, 0x00, 0x00, 0x00, 0x00, 0x00, 0x00, 0x00, 0x00, 0x00, 0x00, 0x00, 0x00, 0x00, 0x00, 0x00,
  0x00, 0x00, 0x00, 0x00, 0x00, 0x00, 0x00, 0x00, 0x00, 0x00, 0x00, 0x00, 0x00, 0x00, 0x00, 0x00,
  0x00, 0x00, 0x00, 0x00, 0x00, 0x00, 0x00, 0x00, 0x00, 0x00, 0x00, 0x00, 0x00, 0x00, 0x00, 0x00,
  0x00, 0x00, 0x00, 0x00, 0x00, 0x00, 0x00, 0x00, 0x00, 0x00, 0x00, 0x00, 0x00, 0x00, 0x00, 0x00,
  0x00, 0x00, 0x00, 0x00, 0x00, 0x00]

def d5 : List Nat := [
  0x30, 0x05, 0x01, 0x00, 0x00, 0x00, 0x01, 0x00, 0x00, 0x00]

def d6 : List Nat := [
  0x30, 0x04, 0x03, 0x00, 0x00, 0x00]

/-- Model of `main()`.  The value is the exit status, `none` when the poll loop
never returns; control that reaches the end of `main` yields status 0. -/
def main (env : Env) : Run (Option Int) := do
  if (← screen_initialize env 1) = Status.FAILURE then
    return some (- EIO)
  serial_set_pollin_callback Callback.frame_notify_serial_recv
  frame_set_received_callback Callback.frame_handler
  frame_send data (sizeof data)
  frame_send d2 (sizeof d2)
  frame_send d3 (sizeof d3)
  frame_send d35 (sizeof d35)
  frame_send d4 (sizeof d4)
  frame_send d5 (sizeof d5)
  frame_send d6 (sizeof d6)
  if (← serial_start_poll_loop env) then
    return some 0
  return none

/-! ## Vocabulary of the statements -/

/-- Whether an event is a call into the GPIO module. -/
def Event.is_gpio : Event → Bool
  | Event.gpio_export _ => true
  | Event.gpio_set_value _ _ => true
  | _ => false

/-- Whether an event is a step of the reset-and-open sequence: a GPIO call or
`serial_setup`. -/
def Event.is_step : Event → Bool
  | Event.gpio_export _ => true
  | Event.gpio_set_value _ _ => true
  | Event.serial_setup _ => true
  | _ => false

/-- Whether an event belongs to the startup that follows `screen_initialize` in
`main`: a callback registration, a `frame_send` or the poll loop. -/
def Event.is_startup : Event → Bool
  | Event.serial_set_pollin_callback _ => true
  | Event.frame_set_received_callback _ => true
  | Event.frame_send _ _ => true
  | Event.serial_start_poll_loop => true
  | _ => false

/-- Result that `env` gives to a step of the reset-and-open sequence. -/
def Env.result (env : Env) : Event → Status
  | Event.gpio_export g => env.gpio_export g
  | Event.gpio_set_value g v => env.gpio_set_value g v
  | Event.serial_setup p => env.serial_setup p
  | _ => Status.SUCCESS

/-- The six steps named by the reset sequence, in order. -/
def reset_steps : List Event :=
  [Event.gpio_export 7, Event.gpio_export 8, Event.gpio_set_value 7 0,
   Event.gpio_set_value 8 0, Event.gpio_set_value 8 1, Event.serial_setup "/dev/ttyS1"]

/-- The steps performed when `steps` are attempted in order and the attempt
stops at the first one that fails: every step before it, and that step. -/
def until_first_failure (env : Env) : List Event → List Event
  | [] => []
  | s :: rest =>
    if env.result s = Status.FAILURE then [s] else s :: until_first_failure env rest

/-- The calls of `main` that follow a successful `screen_initialize`. -/
def startup_calls : List Event :=
  [Event.serial_set_pollin_callback Callback.frame_notify_serial_recv,
   Event.frame_set_received_callback Callback.frame_handler,
   Event.frame_send data 2, Event.frame_send d2 60, Event.frame_send d3 402,
   Event.frame_send d35 14, Event.frame_send d4 246, Event.frame_send d5 10,
   Event.frame_send d6 6, Event.serial_start_poll_loop]

/-- Environment in which every collaborator call succeeds. -/
def env_all_succeed : Env :=
  ⟨fun _ => Status.SUCCESS, fun _ _ => Status.SUCCESS, fun _ => Status.SUCCESS, false⟩

/-- Environment in which the GPIO calls succeed and `serial_setup` fails. -/
def env_serial_fails : Env :=
  ⟨fun _ => Status.SUCCESS, fun _ _ => Status.SUCCESS, fun _ => Status.FAILURE, false⟩

/-! ## Dispatch: what `frame_handler` does -/

/-- The dispatch loop started at element `k`, on a table whose first entry of
type `key` is entry `i` and holds the non-null handler `f`: the loop reads the
entries up to entry `i`, calls `f` once and returns. -/
theorem frame_handler_loop_first_match (frame : List Nat) (len : Int) (key f : Nat) :
    ∀ (cells : List RESPONSE_HANDLER) (k i : Nat) (e : RESPONSE_HANDLER),
      cells[i]? = some e → e.type = key →
      (∀ j x, j < i → cells[j]? = some x → x.type ≠ key) →
      e.handler = some f →
      frame_handler_loop frame len key (HandlerPtr.elem k) cells =
        ⟨(List.range' k (i + 1)).map Event.load_response_handler ++
            [Event.handler_call (some f) (frame.drop 2) (len - 2)],
          Outcome.returned⟩ := by
  intro cells
  induction cells with
  | nil => intro k i e hi; simp at hi
  | cons c cs ih =>
    intro k i e hi he hfirst hf
    cases i with
    | zero =>
      have hc : c = e := by simpa using hi
      subst hc
      simp [frame_handler_loop, he, hf]
    | succ i =>
      have hc : c.type ≠ key := hfirst 0 c (by omega) (by simp)
      have hi2 : cs[i]? = some e := by simpa using hi
      have hfirst2 : ∀ j x, j < i → cs[j]? = some x → x.type ≠ key :=
        fun j x hj hjx => hfirst (j + 1) x (by omega) (by simpa using hjx)
      simp [frame_handler_loop, hc, ih (k + 1) i e hi2 he hfirst2 hf, List.range'_succ]

/-- The dispatch loop started at element `k` of a table that holds no entry of
type `key` reads every entry, then reads element `k + cells.length`, which lies
past the end of the array; it never reaches the code after the loop. -/
theorem frame_handler_loop_no_match (frame : List Nat) (len : Int) (key : Nat) :
    ∀ (cells : List RESPONSE_HANDLER) (k : Nat), (∀ x ∈ cells, x.type ≠ key) →
      frame_handler_loop frame len key (HandlerPtr.elem k) cells =
        ⟨(List.range' k (cells.length + 1)).map Event.load_response_handler,
          Outcome.table_overrun⟩ := by
  intro cells
  induction cells with
  | nil => intro k _; simp [frame_handler_loop, List.range'_succ]
  | cons c cs ih =>
    intro k h
    have hc : c.type ≠ key := h c (List.mem_cons_self _ _)
    have h2 : ∀ x ∈ cs, x.type ≠ key := fun x hx => h x (List.mem_cons_of_mem _ hx)
    simp [frame_handler_loop, hc, ih (k + 1) h2, List.range'_succ]

/-- C1 as amended: for every handler table and every frame of length at least
2 whose first byte is `PAYLOAD_HEADER`, if some table entry has type `frame[1]`
and the first such entry, entry `i`, holds a non-null handler `f`, then
`frame_handler` reads the entries `0..i`, invokes exactly one handler, `f`,
exactly once, with the bytes `frame[2..len)` and the count `len - 2`, invokes
no handler of another entry, reports no warning, and returns. -/
theorem frame_handler_dispatch_routing (PAYLOAD_HEADER : Nat) (table : List RESPONSE_HANDLER)
    (frame : List Nat) (key i f : Nat) (e : RESPONSE_HANDLER)
    (h0 : frame[0]? = some PAYLOAD_HEADER) (h1 : frame[1]? = some key)
    (hi : table[i]? = some e) (he : e.type = key)
    (hfirst : ∀ j x, j < i → table[j]? = some x → x.type ≠ key)
    (hf : e.handler = some f) :
    2 ≤ frame.length ∧
    frame_handler PAYLOAD_HEADER table frame frame.length =
      ⟨(List.range (i + 1)).map Event.load_response_handler ++
          [Event.handler_call (some f) (frame.drop 2) ((frame.length : Int) - 2)],
        Outcome.returned⟩ := by
  refine ⟨?_, ?_⟩
  · rcases frame with _ | ⟨a, _ | ⟨b, r⟩⟩ <;> simp at h1 ⊢
  · simp [frame_handler, h0, h1,
      frame_handler_loop_first_match frame frame.length key f table 0 i e hi he hfirst hf,
      List.range_eq_range']

/-- Witness of C1 as amended, on the table `{0x09: h1, 0x07: h2}` closed by a
null entry and a frame with dispatch key `0x07`: the first match is entry 1. -/
theorem frame_handler_dispatch_routing_witness :
    2 ≤ [0x30, 0x07, 0xaa, 0xbb].length ∧
    frame_handler 0x30 [⟨0x09, some 1⟩, ⟨0x07, some 2⟩, ⟨0, none⟩] [0x30, 0x07, 0xaa, 0xbb]
        ([0x30, 0x07, 0xaa, 0xbb] : List Nat).length =
      ⟨(List.range (1 + 1)).map Event.load_response_handler ++
          [Event.handler_call (some 2) ([0x30, 0x07, 0xaa, 0xbb].drop 2)
            ((([0x30, 0x07, 0xaa, 0xbb] : List Nat).length : Int) - 2)],
        Outcome.returned⟩ :=
  frame_handler_dispatch_routing 0x30 [⟨0x09, some 1⟩, ⟨0x07, some 2⟩, ⟨0, none⟩]
    [0x30, 0x07, 0xaa, 0xbb] 0x07 1 2 ⟨0x07, some 2⟩ (by simp) (by simp) (by simp) rfl
    (by
      intro j x hj hx
      have hj0 : j = 0 := by omega
      subst hj0
      have hx2 : (⟨0x09, some 1⟩ : RESPONSE_HANDLER) = x := by simpa using hx
      subst hx2
      decide)
    rfl

/-- Counterexample to C1 as stated, on the table `{0x09: h1, 0x07: h2}` closed
by the null entry of type 0 and the frame `30 00 aa` of length 3: a table
entry has type `frame[1]`, yet no handler is invoked: the call at line 45 goes
through the null pointer of the closing entry and does not return. -/
theorem frame_handler_dispatch_null_entry :
    (∃ x ∈ [(⟨0x09, some 1⟩ : RESPONSE_HANDLER), ⟨0x07, some 2⟩, ⟨0, none⟩], x.type = 0x00) ∧
    frame_handler 0x30 [⟨0x09, some 1⟩, ⟨0x07, some 2⟩, ⟨0, none⟩] [0x30, 0x00, 0xaa] 3 =
      ⟨[Event.load_response_handler 0, Event.load_response_handler 1,
        Event.load_response_handler 2, Event.handler_call none [0xaa] 1],
        Outcome.null_call⟩ ∧
    (frame_handler 0x30 [⟨0x09, some 1⟩, ⟨0x07, some 2⟩, ⟨0, none⟩] [0x30, 0x00, 0xaa] 3).ret ≠
      Outcome.returned := by
  decide

/-- C3: for every handler table and every frame whose first byte `b0` differs
from `PAYLOAD_HEADER`, `frame_handler` reports one warning that carries `b0`,
performs no other event (no table entry is read, no handler is called) and
returns; the run is the same for every table, every `len` and every content of
the frame after its first byte. -/
theorem frame_handler_unknown_frame_class (PAYLOAD_HEADER : Nat) (table : List RESPONSE_HANDLER)
    (b0 : Nat) (rest : List Nat) (len : Int) (h : b0 ≠ PAYLOAD_HEADER) :
    frame_handler PAYLOAD_HEADER table (b0 :: rest) len =
      ⟨[Event.syslog Priority.LOG_WARNING "frame with unknown type received: %hhx\n" [(b0 : Int)]],
        Outcome.returned⟩ ∧
    ∀ (table2 : List RESPONSE_HANDLER) (rest2 : List Nat) (len2 : Int),
      frame_handler PAYLOAD_HEADER table2 (b0 :: rest2) len2 =
        frame_handler PAYLOAD_HEADER table (b0 :: rest) len := by
  have key : ∀ (t : List RESPONSE_HANDLER) (r : List Nat) (n : Int),
      frame_handler PAYLOAD_HEADER t (b0 :: r) n =
        ⟨[Event.syslog Priority.LOG_WARNING "frame with unknown type received: %hhx\n" [(b0 : Int)]],
          Outcome.returned⟩ := by
    intro t r n
    simp [frame_handler, h]
  exact ⟨key table rest len, fun t r n => (key t r n).trans (key table rest len).symm⟩

/-- Witness of C3: a frame of class `0x31` against the header `0x30`. -/
theorem frame_handler_unknown_frame_class_witness :
    (0x31 : Nat) ≠ 0x30 ∧
    frame_handler 0x30 [⟨0x09, some 1⟩, ⟨0, none⟩] (0x31 :: [0x09, 0x01]) 3 =
      ⟨[Event.syslog Priority.LOG_WARNING "frame with unknown type received: %hhx\n" [((0x31 : Nat) : Int)]],
        Outcome.returned⟩ :=
  ⟨by decide,
    (frame_handler_unknown_frame_class 0x30 [⟨0x09, some 1⟩, ⟨0, none⟩] 0x31 [0x09, 0x01] 3
      (by decide)).1⟩

/-! ## Reset sequence: what `screen_initialize` does -/

/-- Sequencing in `do` blocks is `Run.bind`. -/
theorem Run.bind_eq {α β : Type} (m : Run α) (f : α → Run β) : (m >>= f) = Run.bind m f := rfl

/-- A pure value performs no event. -/
theorem Run.pure_eq {α : Type} (a : α) : (pure a : Run α) = ⟨[], a⟩ := rfl

/-- C4: with `skip_reset = 0` and every GPIO call succeeding, the GPIO calls of
`screen_initialize` are exactly export(7), export(8), set(7,0), set(8,0),
set(8,1) in this order, and `serial_setup("/dev/ttyS1")` is called once, after
all five. -/
theorem screen_initialize_reset_sequence (env : Env)
    (hexp : ∀ g, env.gpio_export g = Status.SUCCESS)
    (hset : ∀ g v, env.gpio_set_value g v = Status.SUCCESS) :
    ( screen_initialize env 0).trace =
      [Event.mask_memory_byte 0x1800c1c1 0xf0 0,
       Event.gpio_export SCREEN_BOOT_MODE_GPIO, Event.gpio_export SCREEN_RESET_GPIO,
       Event.gpio_set_value SCREEN_BOOT_MODE_GPIO 0, Event.gpio_set_value SCREEN_RESET_GPIO 0,
       Event.gpio_set_value SCREEN_RESET_GPIO 1,
       Event.serial_setup "/dev/ttyS1"] ++
      (if env.serial_setup "/dev/ttyS1" = Status.FAILURE then
        [Event.syslog Priority.LOG_ERR "Could not setup serial transport\n" []] else []) ∧
    ( screen_initialize env 0).trace.filter Event.is_gpio =
      [Event.gpio_export 7, Event.gpio_export 8, Event.gpio_set_value 7 0,
       Event.gpio_set_value 8 0, Event.gpio_set_value 8 1] := by
  cases hs : env.serial_setup "/dev/ttyS1" <;>
    simp [ screen_initialize, lor, is_failure, gpio_export, gpio_set_value, serial_setup, syslog,
      mask_memory_byte, emit, Run.bind_eq, Run.pure_eq, Run.bind, hexp, hset, hs,
      SCREEN_BOOT_MODE_GPIO, SCREEN_RESET_GPIO, Event.is_gpio]

/-- Witness of C4: the environment in which every call succeeds. -/
theorem screen_initialize_reset_sequence_witness :
    ( screen_initialize env_all_succeed 0).trace =
      [Event.mask_memory_byte 0x1800c1c1 0xf0 0,
       Event.gpio_export SCREEN_BOOT_MODE_GPIO, Event.gpio_export SCREEN_RESET_GPIO,
       Event.gpio_set_value SCREEN_BOOT_MODE_GPIO 0, Event.gpio_set_value SCREEN_RESET_GPIO 0,
       Event.gpio_set_value SCREEN_RESET_GPIO 1,
       Event.serial_setup "/dev/ttyS1"] ++
      (if env_all_succeed.serial_setup "/dev/ttyS1" = Status.FAILURE then
        [Event.syslog Priority.LOG_ERR "Could not setup serial transport\n" []] else []) ∧
    ( screen_initialize env_all_succeed 0).trace.filter Event.is_gpio =
      [Event.gpio_export 7, Event.gpio_export 8, Event.gpio_set_value 7 0,
       Event.gpio_set_value 8 0, Event.gpio_set_value 8 1] :=
  screen_initialize_reset_sequence env_all_succeed (fun _ => rfl) (fun _ _ => rfl)

/-- With a non-zero `skip_reset`, `screen_initialize` is `mask_memory_byte`
followed by `serial_setup`, whose result decides the return value. -/
theorem screen_initialize_skip_eq (env : Env) (skip_reset : Int) (h : skip_reset ≠ 0) :
    screen_initialize env skip_reset =
      if env.serial_setup "/dev/ttyS1" = Status.FAILURE then
        ⟨[Event.mask_memory_byte 0x1800c1c1 0xf0 0, Event.serial_setup "/dev/ttyS1",
          Event.syslog Priority.LOG_ERR "Could not setup serial transport\n" []], Status.FAILURE⟩
      else
        ⟨[Event.mask_memory_byte 0x1800c1c1 0xf0 0, Event.serial_setup "/dev/ttyS1"],
          Status.SUCCESS⟩ := by
  cases hs : env.serial_setup "/dev/ttyS1" <;>
    simp [ screen_initialize, is_failure, serial_setup, syslog, mask_memory_byte, emit,
      Run.bind_eq, Run.pure_eq, Run.bind, h, hs]

/-- C5: for every non-zero `skip_reset`, `screen_initialize` makes no
`gpio_export` and no `gpio_set_value` call, calls `serial_setup("/dev/ttyS1")`
exactly once, and returns `SUCCESS` if and only if `serial_setup` succeeds. -/
theorem screen_initialize_skip_reset (env : Env) (skip_reset : Int) (h : skip_reset ≠ 0) :
    ( screen_initialize env skip_reset).trace.filter Event.is_gpio = [] ∧
    ( screen_initialize env skip_reset).trace.filter Event.is_step =
      [Event.serial_setup "/dev/ttyS1"] ∧
    (( screen_initialize env skip_reset).ret = Status.SUCCESS ↔
      env.serial_setup "/dev/ttyS1" = Status.SUCCESS) := by
  rw [screen_initialize_skip_eq env skip_reset h]
  cases hs : env.serial_setup "/dev/ttyS1" <;> simp [Event.is_gpio, Event.is_step]

/-- Witness of C5: `skip_reset = 1` in the environment where every call succeeds. -/
theorem screen_initialize_skip_reset_witness :
    ( screen_initialize env_all_succeed 1).trace.filter Event.is_gpio = [] ∧
    ( screen_initialize env_all_succeed 1).trace.filter Event.is_step =
      [Event.serial_setup "/dev/ttyS1"] ∧
    (( screen_initialize env_all_succeed 1).ret = Status.SUCCESS ↔
      env_all_succeed.serial_setup "/dev/ttyS1" = Status.SUCCESS) :=
  screen_initialize_skip_reset env_all_succeed 1 (by decide)

/-- C9: with `skip_reset = 0`, the steps that `screen_initialize` performs are
those of the sequence export(7), export(8), set(7,0), set(8,0), set(8,1),
serial_setup up to and including the first one that fails, and no later one;
after a failing GPIO step `serial_setup` is not called; the function returns
`FAILURE` when some step fails and `SUCCESS` if and only if all six succeed. -/
theorem screen_initialize_short_circuit (env : Env) :
    ( screen_initialize env 0).trace.filter Event.is_step = until_first_failure env reset_steps ∧
    ((∃ s ∈ reset_steps, s.is_gpio = true ∧ env.result s = Status.FAILURE) →
      ∀ p, Event.serial_setup p ∉ ( screen_initialize env 0).trace) ∧
    ((∃ s ∈ reset_steps, env.result s = Status.FAILURE) →
      ( screen_initialize env 0).ret = Status.FAILURE) ∧
    (( screen_initialize env 0).ret = Status.SUCCESS ↔
      ∀ s ∈ reset_steps, env.result s = Status.SUCCESS) := by
  cases h1 : env.gpio_export 7 with
  | FAILURE =>
    simp [ screen_initialize, lor, is_failure, gpio_export, gpio_set_value, serial_setup,
      syslog, mask_memory_byte, emit, Run.bind_eq, Run.pure_eq, Run.bind, h1,
      SCREEN_BOOT_MODE_GPIO, SCREEN_RESET_GPIO, Event.is_gpio, Event.is_step, reset_steps,
      until_first_failure, Env.result]
  | SUCCESS =>
  cases h2 : env.gpio_export 8 with
  | FAILURE =>
    simp [ screen_initialize, lor, is_failure, gpio_export, gpio_set_value, serial_setup,
      syslog, mask_memory_byte, emit, Run.bind_eq, Run.pure_eq, Run.bind, h1, h2,
      SCREEN_BOOT_MODE_GPIO, SCREEN_RESET_GPIO, Event.is_gpio, Event.is_step, reset_steps,
      until_first_failure, Env.result]
  | SUCCESS =>
  cases h3 : env.gpio_set_value 7 0 with
  | FAILURE =>
    simp [ screen_initialize, lor, is_failure, gpio_export, gpio_set_value, serial_setup,
      syslog, mask_memory_byte, emit, Run.bind_eq, Run.pure_eq, Run.bind, h1, h2, h3,
      SCREEN_BOOT_MODE_GPIO, SCREEN_RESET_GPIO, Event.is_gpio, Event.is_step, reset_steps,
      until_first_failure, Env.result]
  | SUCCESS =>
  cases h4 : env.gpio_set_value 8 0 with
  | FAILURE =>
    simp [ screen_initialize, lor, is_failure, gpio_export, gpio_set_value, serial_setup,
      syslog, mask_memory_byte, emit, Run.bind_eq, Run.pure_eq, Run.bind, h1, h2, h3, h4,
      SCREEN_BOOT_MODE_GPIO, SCREEN_RESET_GPIO, Event.is_gpio, Event.is_step, reset_steps,
      until_first_failure, Env.result]
  | SUCCESS =>
  cases h5 : env.gpio_set_value 8 1 with
  | FAILURE =>
    simp [ screen_initialize, lor, is_failure, gpio_export, gpio_set_value, serial_setup,
      syslog, mask_memory_byte, emit, Run.bind_eq, Run.pure_eq, Run.bind, h1, h2, h3, h4, h5,
      SCREEN_BOOT_MODE_GPIO, SCREEN_RESET_GPIO, Event.is_gpio, Event.is_step, reset_steps,
      until_first_failure, Env.result]
  | SUCCESS =>
  cases h6 : env.serial_setup "/dev/ttyS1" with
  | FAILURE =>
    simp [ screen_initialize, lor, is_failure, gpio_export, gpio_set_value, serial_setup,
      syslog, mask_memory_byte, emit, Run.bind_eq, Run.pure_eq, Run.bind, h1, h2, h3, h4, h5, h6,
      SCREEN_BOOT_MODE_GPIO, SCREEN_RESET_GPIO, Event.is_gpio, Event.is_step, reset_steps,
      until_first_failure, Env.result]
  | SUCCESS =>
    simp [ screen_initialize, lor, is_failure, gpio_export, gpio_set_value, serial_setup,
      syslog, mask_memory_byte, emit, Run.bind_eq, Run.pure_eq, Run.bind, h1, h2, h3, h4, h5, h6,
      SCREEN_BOOT_MODE_GPIO, SCREEN_RESET_GPIO, Event.is_gpio, Event.is_step, reset_steps,
      until_first_failure, Env.result]

/-! ## Startup: what `main` does -/

theorem sizeof_data : sizeof data = 2 := rfl

theorem sizeof_d2 : sizeof d2 = 60 := rfl

set_option maxRecDepth 10000 in
theorem sizeof_d3 : sizeof d3 = 402 := rfl

theorem sizeof_d35 : sizeof d35 = 14 := rfl

set_option maxRecDepth 10000 in
theorem sizeof_d4 : sizeof d4 = 246 := rfl

theorem sizeof_d5 : sizeof d5 = 10 := rfl

theorem sizeof_d6 : sizeof d6 = 6 := rfl

set_option maxRecDepth 10000 in
/-- The run of `main` in terms of the run of `screen_initialize(1)`. -/
theorem main_eq (env : Env) :
    main env =
      if ( screen_initialize env 1).ret = Status.FAILURE then
        ⟨( screen_initialize env 1).trace, some (- EIO)⟩
      else
        ⟨( screen_initialize env 1).trace ++ startup_calls,
          if env.serial_start_poll_loop_returns then some 0 else none⟩ := by
  cases hr : ( screen_initialize env 1).ret <;>
  cases hp : env.serial_start_poll_loop_returns <;>
    simp [main, serial_set_pollin_callback, frame_set_received_callback, frame_send,
      serial_start_poll_loop, emit, Run.bind_eq, Run.pure_eq, Run.bind, hr, hp, startup_calls,
      sizeof_data, sizeof_d2, sizeof_d3, sizeof_d35, sizeof_d4, sizeof_d5, sizeof_d6]

set_option maxRecDepth 10000 in
/-- The payloads sent by `main` carry the message types 0x01, 0x09, 0x07, 0x06,
0x08, 0x05, 0x04 in their second byte. -/
theorem payload_types :
    [data, d2, d3, d35, d4, d5, d6].map (fun d => d[1]?) =
      [some 0x01, some 0x09, some 0x07, some 0x06, some 0x08, some 0x05, some 0x04] := by
  decide

/-- Lengths of the payload arrays of `main`. -/
theorem payload_lengths :
    [data, d2, d3, d35, d4, d5, d6].map List.length = [2, 60, 402, 14, 246, 10, 6] := by
  have h1 := sizeof_data
  have h2 := sizeof_d2
  have h3 := sizeof_d3
  have h4 := sizeof_d35
  have h5 := sizeof_d4
  have h6 := sizeof_d5
  have h7 := sizeof_d6
  simp only [sizeof] at h1 h2 h3 h4 h5 h6 h7
  simp [h1, h2, h3, h4, h5, h6, h7]

/-- C7: whenever `screen_initialize` returns `FAILURE`, `main` returns `-EIO`,
which is not 0, the status of a run that reaches the end of `main`; its events
are those of `screen_initialize` alone: no callback is registered, no frame is
sent and the poll loop is not entered. -/
theorem main_setup_failure_aborts (env : Env)
    (h : ( screen_initialize env 1).ret = Status.FAILURE) :
    (main env).ret = some (- EIO) ∧ (- EIO) ≠ 0 ∧ (main env).ret ≠ some 0 ∧
    (main env).trace = ( screen_initialize env 1).trace ∧
    (main env).trace.filter Event.is_startup = [] := by
  have hf : ( screen_initialize env 1).trace.filter Event.is_startup = [] := by
    rw [screen_initialize_skip_eq env 1 (by decide)]
    cases hs : env.serial_setup "/dev/ttyS1" <;> simp [Event.is_startup]
  rw [main_eq]
  simp [h, hf, EIO]

/-- Witness of C7: `serial_setup` fails. -/
theorem main_setup_failure_aborts_witness :
    (main env_serial_fails).ret = some (- EIO) ∧ (- EIO) ≠ 0 ∧ (main env_serial_fails).ret ≠ some 0 ∧
    (main env_serial_fails).trace = ( screen_initialize env_serial_fails 1).trace ∧
    (main env_serial_fails).trace.filter Event.is_startup = [] :=
  main_setup_failure_aborts env_serial_fails
    (by simp [screen_initialize_skip_eq, env_serial_fails])

/-- C8: whenever `screen_initialize` succeeds, the calls of `main` after it are
exactly: `serial_set_pollin_callback(frame_notify_serial_recv)`,
`frame_set_received_callback(frame_handler)`, `frame_send` of data, d2, d3,
d35, d4, d5, d6 in this order, each with the length of its array (message type
bytes 0x01, 0x09, 0x07, 0x06, 0x08, 0x05, 0x04), and last
`serial_start_poll_loop`; `screen_initialize` itself performs none of these
calls. -/
theorem main_startup_order (env : Env)
    (h : ( screen_initialize env 1).ret = Status.SUCCESS) :
    (main env).trace =
      ( screen_initialize env 1).trace ++
        [Event.serial_set_pollin_callback Callback.frame_notify_serial_recv,
         Event.frame_set_received_callback Callback.frame_handler,
         Event.frame_send data 2, Event.frame_send d2 60, Event.frame_send d3 402,
         Event.frame_send d35 14, Event.frame_send d4 246, Event.frame_send d5 10,
         Event.frame_send d6 6, Event.serial_start_poll_loop] ∧
    ( screen_initialize env 1).trace.filter Event.is_startup = [] ∧
    [data, d2, d3, d35, d4, d5, d6].map (fun d => d[1]?) =
      [some 0x01, some 0x09, some 0x07, some 0x06, some 0x08, some 0x05, some 0x04] ∧
    [data, d2, d3, d35, d4, d5, d6].map List.length = [2, 60, 402, 14, 246, 10, 6] := by
  have hf : ( screen_initialize env 1).trace.filter Event.is_startup = [] := by
    rw [screen_initialize_skip_eq env 1 (by decide)]
    cases hs : env.serial_setup "/dev/ttyS1" <;> simp [Event.is_startup]
  refine ⟨?_, hf, payload_types, payload_lengths⟩
  rw [main_eq]
  simp [h, startup_calls]

/-- Witness of C8: every collaborator call succeeds. -/
theorem main_startup_order_witness :
    (main env_all_succeed).trace =
      ( screen_initialize env_all_succeed 1).trace ++
        [Event.serial_set_pollin_callback Callback.frame_notify_serial_recv,
         Event.frame_set_received_callback Callback.frame_handler,
         Event.frame_send data 2, Event.frame_send d2 60, Event.frame_send d3 402,
         Event.frame_send d35 14, Event.frame_send d4 246, Event.frame_send d5 10,
         Event.frame_send d6 6, Event.serial_start_poll_loop] ∧
    ( screen_initialize env_all_succeed 1).trace.filter Event.is_startup = [] ∧
    [data, d2, d3, d35, d4, d5, d6].map (fun d => d[1]?) =
      [some 0x01, some 0x09, some 0x07, some 0x06, some 0x08, some 0x05, some 0x04] ∧
    [data, d2, d3, d35, d4, d5, d6].map List.length = [2, 60, 402, 14, 246, 10, 6] :=
  main_startup_order env_all_succeed
    (by simp [screen_initialize_skip_eq, env_all_succeed])

/-- Counterexample to C6 as stated: in the run of `main` in which every
collaborator call succeeds, the serial transport is opened and no GPIO call
has been made, before it or after it. -/
theorem main_opens_transport_without_reset :
    Event.serial_setup "/dev/ttyS1" ∈ (main env_all_succeed).trace ∧
    (main env_all_succeed).trace.filter Event.is_gpio = [] := by
  rw [main_eq, screen_initialize_skip_eq env_all_succeed 1 (by decide)]
  simp [env_all_succeed, startup_calls, Event.is_gpio]

/-- C6 as amended: in every run of `main` the reset sequence is skipped: `main`
passes the constant 1 as `skip_reset`, its first two calls are
`mask_memory_byte` and `serial_setup("/dev/ttyS1")`, it makes no GPIO call, and
its run is the same whatever the GPIO module would answer; `main` takes no
configuration flag. -/
theorem main_always_skips_reset (env : Env) :
    (main env).trace.take 2 =
      [Event.mask_memory_byte 0x1800c1c1 0xf0 0, Event.serial_setup "/dev/ttyS1"] ∧
    (main env).trace.filter Event.is_gpio = [] ∧
    ∀ (ge : Nat → Status) (gs : Nat → Nat → Status),
      main ⟨ge, gs, env.serial_setup, env.serial_start_poll_loop_returns⟩ = main env := by
  refine ⟨?_, ?_, ?_⟩
  · rw [main_eq, screen_initialize_skip_eq env 1 (by decide)]
    cases hs : env.serial_setup "/dev/ttyS1" <;> simp
  · rw [main_eq, screen_initialize_skip_eq env 1 (by decide)]
    cases hs : env.serial_setup "/dev/ttyS1" <;> simp [startup_calls, Event.is_gpio]
  · intro ge gs
    rw [main_eq, main_eq, screen_initialize_skip_eq env 1 (by decide),
      screen_initialize_skip_eq _ 1 (by decide)]

/-! ## Dispatch: the sentinel and the code after the loop -/

/-- Every event of the dispatch loop started at a table element is a read of a
table entry or a call through a handler pointer. -/
theorem frame_handler_loop_events (frame : List Nat) (len : Int) (key : Nat) :
    ∀ (cells : List RESPONSE_HANDLER) (k : Nat),
      ∀ ev ∈ (frame_handler_loop frame len key (HandlerPtr.elem k) cells).trace,
        (∃ i, ev = Event.load_response_handler i) ∨
        (∃ f, ev = Event.handler_call f (frame.drop 2) (len - 2)) := by
  intro cells
  induction cells with
  | nil => intro k ev hev; simp [frame_handler_loop] at hev; exact Or.inl ⟨k, hev⟩
  | cons c cs ih =>
    intro k ev hev
    by_cases hc : c.type = key
    · simp [frame_handler_loop, hc] at hev
      rcases hev with rfl | rfl
      · exact Or.inl ⟨k, rfl⟩
      · exact Or.inr ⟨c.handler, rfl⟩
    · simp [frame_handler_loop, hc] at hev
      rcases hev with rfl | hev
      · exact Or.inl ⟨k, rfl⟩
      · exact ih (k + 1) ev hev

/-- The dispatch loop started at a table element returns only after a call
through a non-null handler pointer. -/
theorem frame_handler_loop_returned (frame : List Nat) (len : Int) (key : Nat) :
    ∀ (cells : List RESPONSE_HANDLER) (k : Nat),
      (frame_handler_loop frame len key (HandlerPtr.elem k) cells).ret = Outcome.returned →
        ∃ f, Event.handler_call (some f) (frame.drop 2) (len - 2) ∈
          (frame_handler_loop frame len key (HandlerPtr.elem k) cells).trace := by
  intro cells
  induction cells with
  | nil => intro k h; simp [frame_handler_loop] at h
  | cons c cs ih =>
    intro k h
    by_cases hc : c.type = key
    · cases hh : c.handler with
      | none => simp [frame_handler_loop, hc, hh] at h
      | some f => exact ⟨f, by simp [frame_handler_loop, hc, hh]⟩
    · simp only [frame_handler_loop, hc, if_false] at h ⊢
      obtain ⟨f, hf⟩ := ih (k + 1) h
      exact ⟨f, List.mem_cons_of_mem _ hf⟩

/-- For every table, whether or not it ends in a null entry, and every frame
whose first byte is `PAYLOAD_HEADER`: `frame_handler` reports no warning and
prints nothing, and it returns only after it has called a handler.  The code
after the dispatch loop (lines 50-51) is never run. -/
theorem frame_handler_never_reports_unknown_response (PAYLOAD_HEADER : Nat)
    (table : List RESPONSE_HANDLER) (frame : List Nat) (len : Int)
    (h0 : frame[0]? = some PAYLOAD_HEADER) :
    (∀ ev ∈ (frame_handler PAYLOAD_HEADER table frame len).trace,
      (∀ p f a, ev ≠ Event.syslog p f a) ∧ (∀ f a, ev ≠ Event.printf f a)) ∧
    ((frame_handler PAYLOAD_HEADER table frame len).ret = Outcome.returned →
      ∃ f, Event.handler_call (some f) (frame.drop 2) (len - 2) ∈
        (frame_handler PAYLOAD_HEADER table frame len).trace) := by
  cases h1 : frame[1]? with
  | none => simp [frame_handler, h0, h1]
  | some key =>
    simp only [frame_handler, h0, h1, ne_eq, not_true_eq_false, if_false]
    refine ⟨?_, frame_handler_loop_returned frame len key table 0⟩
    intro ev hev
    rcases frame_handler_loop_events frame len key table 0 ev hev with ⟨i, rfl⟩ | ⟨f, rfl⟩ <;>
      simp

/-- On a table made of entries none of which has type `key`, closed by a null
entry of another type, a payload-header frame with dispatch key `key` makes
`frame_handler` read past the null entry and past the end of the array. -/
theorem frame_handler_unregistered_type_overruns (PAYLOAD_HEADER : Nat)
    (regs : List RESPONSE_HANDLER) (sentinel_type : Nat) (frame : List Nat) (len : Int)
    (key : Nat) (h0 : frame[0]? = some PAYLOAD_HEADER) (h1 : frame[1]? = some key)
    (hregs : ∀ x ∈ regs, x.type ≠ key) (hs : sentinel_type ≠ key) :
    frame_handler PAYLOAD_HEADER (regs ++ [⟨sentinel_type, none⟩]) frame len =
      ⟨(List.range (regs.length + 2)).map Event.load_response_handler,
        Outcome.table_overrun⟩ := by
  have hall : ∀ x ∈ regs ++ [(⟨sentinel_type, none⟩ : RESPONSE_HANDLER)], x.type ≠ key := by
    intro x hx
    rcases List.mem_append.mp hx with hx | hx
    · exact hregs x hx
    · have : x = ⟨sentinel_type, none⟩ := by simpa using hx
      rw [this]; exact hs
  simp [frame_handler, h0, h1, frame_handler_loop_no_match frame len key _ 0 hall,
    List.range_eq_range']

/-- C2 at a failing input: on the table `{0x09: h1, 0x07: h2}` closed by the
null entry, the frame `30 ff 01` (dispatch key `0xff`, registered nowhere)
makes `frame_handler` read entries 0, 1, 2 and then entry 3, past the end of
the array; no warning is reported and the frame is not dumped, which is not the
run of the code after the loop. -/
theorem frame_handler_unhandled_type_overruns_table :
    frame_handler 0x30 [⟨0x09, some 1⟩, ⟨0x07, some 2⟩, ⟨0, none⟩] [0x30, 0xff, 0x01] 3 =
      ⟨[Event.load_response_handler 0, Event.load_response_handler 1,
        Event.load_response_handler 2, Event.load_response_handler 3],
        Outcome.table_overrun⟩ ∧
    frame_handler 0x30 [⟨0x09, some 1⟩, ⟨0x07, some 2⟩, ⟨0, none⟩] [0x30, 0xff, 0x01] 3 ≠
      frame_handler_unknown_response [0x30, 0xff, 0x01] 3 0xff := by
  decide

/-- C10 at two failing inputs, on the table `{0x09: h1}` closed by the null
entry of type 0: with dispatch key 0 the null handler of the sentinel is
called; with dispatch key `0x42` entry 2, located after the sentinel, is read. -/
theorem frame_handler_scan_passes_sentinel :
    frame_handler 0x30 [⟨0x09, some 1⟩, ⟨0, none⟩] [0x30, 0x00] 2 =
      ⟨[Event.load_response_handler 0, Event.load_response_handler 1,
        Event.handler_call none [] 0], Outcome.null_call⟩ ∧
    frame_handler 0x30 [⟨0x09, some 1⟩, ⟨0, none⟩] [0x30, 0x42] 2 =
      ⟨[Event.load_response_handler 0, Event.load_response_handler 1,
        Event.load_response_handler 2], Outcome.table_overrun⟩ := by
  decide

end K3ScreenCtrl
